import Mathlib

/-!
Shallow embedding of `scripts/generate_assets.py`, a one-shot asset
pipeline that draws placeholder icons, screenshots and a promo tile with
PIL and writes them under two fixed directory trees.

Modelling conventions:
* Python exceptions are the `Except PyEx` monad; a `try/except` block is
  the explicit handler `pyTry`.
* The ambient system is an `Env : String → Bool` telling which font
  files `ImageFont.truetype` can load; a `Metrics` record supplies PIL's
  deterministic text measurement `draw.textbbox` as a function of the
  text and the font.
* A PIL image is its mode, its pixel dimensions and the ordered list of
  drawing operations applied to it; two images with the same dimensions
  and the same operation list render identically, so pixel-level facts
  (dimensions, geometry of a drawn shape, determinism) are facts about
  these fields.
* Python `//` on ints is `Int.fdiv` (floor division), `%` is `Int.fmod`;
  float arithmetic on the values appearing here is modelled exactly by
  `Rat` (the literals 0.28 and 0.70 are taken as the rationals they
  denote; no claim depends on their float rounding).
* The filesystem is the set of created directories plus an association
  list of written files; `Path.mkdir` honours `parents`/`exist_ok`, and
  `Image.save` requires the parent directory and overwrites.
-/

namespace GenerateAssets

/-- A Python exception (the script never inspects the exception value). -/
inductive PyEx where
  | err : PyEx
deriving DecidableEq

/-- A PIL font handle: either a truetype font loaded from a path at a
point size, or the built-in bitmap font `ImageFont.load_default()`,
which takes no size. -/
inductive Font where
  | truetype (path : String) (size : Int) : Font
  | builtin : Font
deriving DecidableEq

/-- Which font paths the ambient system can load. -/
abbrev Env : Type := String → Bool

/-- First candidate path tried by `get_font`. -/
def sfnsPath : String := "/System/Library/Fonts/SFNS.ttf"

/-- Second candidate path tried by `get_font`. -/
def arialUnicodePath : String := "/System/Library/Fonts/Supplemental/Arial Unicode.ttf"

/-- `ImageFont.truetype(path, size)`: raises unless the system can load
the font file at `path`. -/
def ImageFont_truetype (env : Env) (path : String) (size : Int) : Except PyEx Font :=
  if env path then .ok (.truetype path size) else .error .err

/-- `ImageFont.load_default()`: always succeeds, ignores any size. -/
def ImageFont_load_default : Font := .builtin

/-- Python `try: body except Exception: handler`. -/
def pyTry {α : Type} (body : Except PyEx α) (handler : PyEx → Except PyEx α) :
    Except PyEx α :=
  match body with
  | .ok v => .ok v
  | .error e => handler e

/-- `get_font` with its two `try/except` blocks made explicit in the
exception monad, exactly following the source's nesting. -/
def get_fontE (env : Env) (size : Int) : Except PyEx Font :=
  pyTry (ImageFont_truetype env sfnsPath size) (fun _ =>
    pyTry (ImageFont_truetype env arialUnicodePath size) (fun _ =>
      .ok ImageFont_load_default))

/-- `get_font`, instrumented to also return the list of candidate font
paths it consulted, in order. -/
def get_fontT (env : Env) (size : Int) : Font × List String :=
  match ImageFont_truetype env sfnsPath size with
  | .ok f => (f, [sfnsPath])
  | .error _ =>
    match ImageFont_truetype env arialUnicodePath size with
    | .ok f => (f, [sfnsPath, arialUnicodePath])
    | .error _ => (ImageFont_load_default, [sfnsPath, arialUnicodePath])

/-- The font returned by `get_font(size)`. -/
def get_font (env : Env) (size : Int) : Font :=
  (get_fontT env size).1

/-- A text bounding box as returned by `draw.textbbox((0,0), text, font)`. -/
structure BBox where
  x0 : Int
  y0 : Int
  x1 : Int
  y1 : Int
deriving DecidableEq

/-- PIL's deterministic text measurement, abstracted as a parameter. -/
structure Metrics where
  textbbox : String → Font → BBox

/-- One PIL drawing call with the arguments the script passes it. -/
inductive DrawOp where
  | rectangle (x0 y0 x1 y1 : Rat) (fill : List Int)
  | rounded_rectangle (x0 y0 x1 y1 : Rat) (radius : Int)
      (fill : Option (List Int)) (outline : Option (List Int)) (width : Int)
  | ellipse (x0 y0 x1 y1 : Int) (fill : List Int)
  | text (x y : Rat) (str : String) (font : Font) (fill : List Int)
deriving DecidableEq

/-- A PIL image: mode, pixel dimensions, background colour, and the
ordered drawing operations applied to it. -/
structure Image where
  mode : String
  width : Int
  height : Int
  background : List Int
  ops : List DrawOp
deriving DecidableEq

/-- `Image.new(mode, (w, h), color)`: raises on negative dimensions. -/
def Image.new (mode : String) (w h : Int) (color : List Int) : Except PyEx Image :=
  if 0 ≤ w ∧ 0 ≤ h then .ok ⟨mode, w, h, color, []⟩ else .error .err

/-- Appending one drawing call to an image (a `draw.*` method). -/
def Image.draw (img : Image) (op : DrawOp) : Image :=
  { img with ops := img.ops ++ [op] }

/-- A filesystem path relative to the repository root, as components. -/
abbrev Path : Type := List String

/-- All ancestors of a path including itself (what `parents=True` creates). -/
def ancestors (p : Path) : List Path :=
  (List.range (List.length p)).map (fun i => List.take (i + 1) p)

/-- The filesystem: created directories and written files (newest first;
lookup takes the newest, so re-saving overwrites). -/
structure FS where
  dirs : List Path
  files : List (Path × Image)
deriving DecidableEq

/-- `p.mkdir(parents=…, exist_ok=…)`. -/
def FS.mkdir (fs : FS) (p : Path) (parents exist_ok : Bool) : Except PyEx FS :=
  if !exist_ok && fs.dirs.contains p then .error .err
  else if !parents && decide (List.length p > 1) && !(fs.dirs.contains (List.dropLast p)) then
    .error .err
  else .ok { fs with dirs := ancestors p ++ fs.dirs }

/-- `img.save(p)`: needs the parent directory, overwrites any old file. -/
def FS.save (fs : FS) (p : Path) (img : Image) : Except PyEx FS :=
  if fs.dirs.contains (List.dropLast p) then
    .ok { fs with files := (p, img) :: fs.files }
  else .error .err

/-- `ASSETS_DIR = ROOT / "myayai-extension" / "assets" / "icons"`. -/
def ASSETS_DIR : Path := ["myayai-extension", "assets", "icons"]

/-- `STORE_DIR = ROOT / "store-assets"`. -/
def STORE_DIR : Path := ["store-assets"]

/-- `SCREENSHOTS_DIR = STORE_DIR / "screenshots"`. -/
def SCREENSHOTS_DIR : Path := ["store-assets", "screenshots"]

/-- `ensure_dirs()`: the loop over `[ASSETS_DIR, SCREENSHOTS_DIR]`
unrolled. -/
def ensure_dirs (fs : FS) : Except PyEx FS := do
  let fs ← fs.mkdir ASSETS_DIR true true
  fs.mkdir SCREENSHOTS_DIR true true

/-- `radius = max(6, size // 8)` from `create_icon`. -/
def icon_radius (size : Int) : Int := max 6 (size.fdiv 8)

/-- `create_icon(size, filename)`. -/
def create_icon (M : Metrics) (env : Env) (size : Int) (filename : String)
    (fs : FS) : Except PyEx (FS × Path) := do
  let img ← Image.new ("RGBA") size size [19, 27, 38, 255]
  let radius := icon_radius size
  let img := img.draw (.rounded_rectangle 0 0 ((size : Rat) - 1) ((size : Rat) - 1)
    radius (some [25, 32, 45, 255]) none 1)
  let r := size.fdiv 3
  let cx := size.fdiv 2
  let cy := size.fdiv 2
  let img := img.draw (.ellipse (cx - r) (cy - r) (cx + r) (cy + r) [0, 145, 255, 230])
  let font := get_font env (size.fdiv 3)
  let text := "A"
  let bb := M.textbbox text font
  let tw := bb.x1
  let th := bb.y1
  let img := img.draw (.text ((cx : Rat) - (tw : Rat) / 2) ((cy : Rat) - (th : Rat) / 2)
    text font [255, 255, 255, 255])
  let out := ASSETS_DIR ++ [filename]
  let fs ← fs.save out img
  return (fs, out)

/-- Python `range(start, stop, step)` for positive `step`. -/
def pyrange (start stop step : Int) : List Int :=
  if 0 < step then
    (List.range ((stop - start + step - 1).fdiv step).toNat).map
      (fun i => start + step * (i : Int))
  else []

/-- Python `int(x)` on a rational: truncation toward zero. -/
def pyint (q : Rat) : Int := if 0 ≤ q then q.floor else q.ceil

/-- `create_promo(width, height, filename, title, subtitle)`. -/
def create_promo (M : Metrics) (env : Env) (width height : Int)
    (filename title subtitle : String) (fs : FS) : Except PyEx (FS × Path) := do
  let img ← Image.new ("RGB") width height [17, 24, 39]
  let img := (pyrange 0 height 6).foldl (fun im i =>
    let shade := 24 + i.fmod 48
    im.draw (.rectangle 0 (i : Rat) (width : Rat) ((i : Rat) + 3)
      [shade, shade + 2, shade + 5])) img
  let title_font := get_font env (min (width.fdiv 12) 64)
  let subtitle_font := get_font env (min (width.fdiv 24) 32)
  let tb := M.textbbox title title_font
  let tw := tb.x1
  let th := tb.y1
  let img := img.draw (.text (((width : Rat) - (tw : Rat)) / 2)
    ((height : Rat) * (28 / 100) - (th : Rat) / 2) title title_font [255, 255, 255])
  let sb := M.textbbox subtitle subtitle_font
  let sw := sb.x1
  let img := img.draw (.text (((width : Rat) - (sw : Rat)) / 2)
    ((height : Rat) * (28 / 100) + (th : Rat) / 2 + 12) subtitle subtitle_font
    [180, 210, 255])
  let pill := "One‑click prompt optimization"
  let pill_font := get_font env (min (width.fdiv 32) 22)
  let pb := M.textbbox pill pill_font
  let pw := pb.x1
  let ph := pb.y1
  let pad : Int := 16
  let bx0 := (width - pw).fdiv 2 - pad
  let by0 := pyint ((height : Rat) * (70 / 100) - (ph : Rat) / 2 - 10)
  let bx1 := (width + pw).fdiv 2 + pad
  let by1 := pyint ((height : Rat) * (70 / 100) + (ph : Rat) / 2 + 10)
  let img := img.draw (.rounded_rectangle (bx0 : Rat) (by0 : Rat) (bx1 : Rat) (by1 : Rat)
    18 (some [0, 145, 255]) none 1)
  let img := img.draw (.text (((width : Rat) - (pw : Rat)) / 2)
    ((height : Rat) * (70 / 100) - (ph : Rat) / 2) pill pill_font [0, 0, 0])
  let out := STORE_DIR ++ [filename]
  let fs ← fs.save out img
  return (fs, out)

/-- `create_screenshot(idx, title, subtitle)`. -/
def create_screenshot (M : Metrics) (env : Env) (idx : Int)
    (title subtitle : String) (fs : FS) : Except PyEx (FS × Path) := do
  let width : Int := 1280
  let height : Int := 800
  let img ← Image.new ("RGB") width height [14, 19, 30]
  let img := img.draw (.rectangle 0 0 (width : Rat) 96 [25, 35, 56])
  let title_font := get_font env 52
  let subtitle_font := get_font env 28
  let img := img.draw (.text 48 28 title title_font [255, 255, 255])
  let img := img.draw (.text 48 (96 + 24) subtitle subtitle_font [185, 205, 235])
  let y : Int := 180
  let st := (List.range 3).foldl (fun (acc : Image × Int) _ =>
    (acc.1.draw (.rounded_rectangle 48 (acc.2 : Rat) ((width : Rat) - 48)
      ((acc.2 : Rat) + 140) 16 (some [22, 30, 48]) (some [70, 90, 130]) 2),
     acc.2 + 160)) (img, y)
  let img := st.1
  let foot_font := get_font env 18
  let img := img.draw (.text 48 ((height : Rat) - 40)
    ("Placeholder screenshot (auto‑generated)") foot_font [150, 170, 200])
  let out := SCREENSHOTS_DIR ++ ["screenshot-" ++ toString idx ++ ".png"]
  let fs ← fs.save out img
  return (fs, out)

/-- `main()`: the driver, additionally returning the list of paths the
generator calls returned, in call order (the script discards them). -/
def main (M : Metrics) (env : Env) (fs : FS) : Except PyEx (FS × List Path) := do
  let fs ← ensure_dirs fs
  let (fs, p1) ← create_icon M env 16 ("icon16.png") fs
  let (fs, p2) ← create_icon M env 32 ("icon32.png") fs
  let (fs, p3) ← create_icon M env 48 ("icon48.png") fs
  let (fs, p4) ← create_icon M env 128 ("icon128.png") fs
  let (fs, s1) ← create_screenshot M env 1 ("One‑click Optimization")
    ("Upgrade prompts while preserving intent") fs
  let (fs, s2) ← create_screenshot M env 2 ("Dashboard & Insights")
    ("Track improvements and time saved") fs
  let (fs, s3) ← create_screenshot M env 3 ("Works Across Platforms")
    ("ChatGPT, Claude, Gemini, Perplexity, Copilot, Poe") fs
  let (fs, s4) ← create_screenshot M env 4 ("Achievements")
    ("Build better prompting habits over time") fs
  let (fs, s5) ← create_screenshot M env 5 ("Before → After")
    ("See improvements called out clearly") fs
  let (fs, pr) ← create_promo M env 440 280 ("promo-440x280.png") ("MyAyAI")
    ("AI Prompt Optimizer") fs
  return (fs, [p1, p2, p3, p4, s1, s2, s3, s4, s5, pr])

/-- Is `p` a file directly inside directory `d`? -/
def inDir (d : Path) (p : Path) : Bool :=
  !(List.isEmpty p) && List.dropLast p == d

/-- The ten output paths of one run, in the order they are written. -/
def allOutputPaths : List Path :=
  [ASSETS_DIR ++ ["icon16.png"], ASSETS_DIR ++ ["icon32.png"],
   ASSETS_DIR ++ ["icon48.png"], ASSETS_DIR ++ ["icon128.png"],
   SCREENSHOTS_DIR ++ ["screenshot-1.png"], SCREENSHOTS_DIR ++ ["screenshot-2.png"],
   SCREENSHOTS_DIR ++ ["screenshot-3.png"], SCREENSHOTS_DIR ++ ["screenshot-4.png"],
   SCREENSHOTS_DIR ++ ["screenshot-5.png"], STORE_DIR ++ ["promo-440x280.png"]]

/-- An initially empty filesystem. -/
def emptyFS : FS := ⟨[], []⟩

/-- A system with no loadable font files at all. -/
def envNone : Env := fun _ => false

/-- A system where only the primary candidate font loads. -/
def envSfns : Env := fun p => p == sfnsPath

/-- A system that can load one unrelated font file but neither candidate:
distinct from `envNone` yet giving the same font resolution. -/
def envOther : Env := fun p => p == "/usr/share/fonts/other.ttf"

/-- A fixed, arbitrary text-measurement table for concrete evaluation. -/
def M0 : Metrics := ⟨fun _ _ => ⟨0, 0, 7, 9⟩⟩

/-- A filesystem that already has the icons directory. -/
def fsIcons : FS := ⟨[ASSETS_DIR], []⟩

/-- A filesystem that already has the screenshots directory. -/
def fsShots : FS := ⟨[SCREENSHOTS_DIR], []⟩

/-- Does a drawing operation draw an ellipse? -/
def DrawOp.isEllipse : DrawOp → Bool
  | .ellipse _ _ _ _ _ => true
  | _ => false

/-- The image `create_icon(size, filename)` saves, written out explicitly
(proved equal to what `create_icon` builds in `create_icon_ok`). -/
def iconImage (M : Metrics) (env : Env) (size : Int) : Image :=
  ⟨"RGBA", size, size, [19, 27, 38, 255],
   [.rounded_rectangle 0 0 ((size : Rat) - 1) ((size : Rat) - 1) (icon_radius size)
      (some [25, 32, 45, 255]) none 1,
    .ellipse (size.fdiv 2 - size.fdiv 3) (size.fdiv 2 - size.fdiv 3)
      (size.fdiv 2 + size.fdiv 3) (size.fdiv 2 + size.fdiv 3) [0, 145, 255, 230],
    .text ((size.fdiv 2 : Rat) - ((M.textbbox ("A") (get_font env (size.fdiv 3))).x1 : Rat) / 2)
      ((size.fdiv 2 : Rat) - ((M.textbbox ("A") (get_font env (size.fdiv 3))).y1 : Rat) / 2)
      ("A") (get_font env (size.fdiv 3)) [255, 255, 255, 255]]⟩

/-- The image `create_screenshot(idx, title, subtitle)` saves, written
out explicitly (proved equal to what the function builds in
`create_screenshot_ok`); it does not depend on the index. -/
def screenshotImage (env : Env) (title subtitle : String) : Image :=
  ⟨"RGB", 1280, 800, [14, 19, 30],
   [.rectangle 0 0 (((1280 : Int)) : Rat) 96 [25, 35, 56],
    .text 48 28 title (get_font env 52) [255, 255, 255],
    .text 48 (96 + 24) subtitle (get_font env 28) [185, 205, 235],
    .rounded_rectangle 48 (((180 : Int)) : Rat) ((((1280 : Int)) : Rat) - 48)
      ((((180 : Int)) : Rat) + 140) 16 (some [22, 30, 48]) (some [70, 90, 130]) 2,
    .rounded_rectangle 48 (((340 : Int)) : Rat) ((((1280 : Int)) : Rat) - 48)
      ((((340 : Int)) : Rat) + 140) 16 (some [22, 30, 48]) (some [70, 90, 130]) 2,
    .rounded_rectangle 48 (((500 : Int)) : Rat) ((((1280 : Int)) : Rat) - 48)
      ((((500 : Int)) : Rat) + 140) 16 (some [22, 30, 48]) (some [70, 90, 130]) 2,
    .text 48 ((((800 : Int)) : Rat) - 40) ("Placeholder screenshot (auto‑generated)")
      (get_font env 18) [150, 170, 200]]⟩

/-- Saving a file directly inside an existing directory succeeds and
prepends it to the file list. -/
theorem save_concat {fs : FS} {d : Path} (hd : fs.dirs.contains d = true)
    (nm : String) (img : Image) :
    FS.save fs (d ++ [nm]) img =
      .ok { fs with files := (d ++ [nm], img) :: fs.files } := by
  unfold FS.save
  rw [List.dropLast_concat, hd]
  simp

/-- Behaviour of `create_icon` on a nonnegative size when the icons
directory exists: it succeeds and saves `iconImage` at
`ASSETS_DIR/filename`. -/
theorem create_icon_ok (M : Metrics) (env : Env) (size : Int) (filename : String)
    (fs : FS) (hs : 0 ≤ size) (hd : fs.dirs.contains ASSETS_DIR = true) :
    create_icon M env size filename fs =
      .ok (⟨fs.dirs, (ASSETS_DIR ++ [filename], iconImage M env size) :: fs.files⟩,
           ASSETS_DIR ++ [filename]) := by
  unfold create_icon iconImage Image.new FS.save
  rw [if_pos ⟨hs, hs⟩]
  simp only [bind, Except.bind, Image.draw, List.nil_append, List.cons_append,
    List.dropLast_concat, hd, if_true, pure, Except.pure]

/-- Behaviour of `create_screenshot` when the screenshots directory
exists: it succeeds and saves `screenshotImage` under the
index-numbered filename. -/
theorem create_screenshot_ok (M : Metrics) (env : Env) (idx : Int)
    (title subtitle : String) (fs : FS)
    (hd : fs.dirs.contains SCREENSHOTS_DIR = true) :
    create_screenshot M env idx title subtitle fs =
      .ok (⟨fs.dirs,
            (SCREENSHOTS_DIR ++ ["screenshot-" ++ toString idx ++ ".png"],
             screenshotImage env title subtitle) :: fs.files⟩,
           SCREENSHOTS_DIR ++ ["screenshot-" ++ toString idx ++ ".png"]) := by
  unfold create_screenshot screenshotImage
  simp only [save_concat hd]
  rfl

/-- C1: `get_font` never raises: for every environment (including one
with no loadable system font) and every requested point size, the
`try/except` structure yields `Except.ok` with the font `get_font`
returns, which every drawing routine of the script accepts. -/
theorem get_font_never_raises (env : Env) (size : Int) :
    get_fontE env size = .ok (get_font env size) := by
  unfold get_fontE get_font get_fontT pyTry ImageFont_truetype
  cases h1 : env sfnsPath <;> cases h2 : env arialUnicodePath <;> simp [h1, h2]

/-- C2: for every positive requested size, `create_icon` saves at
`ASSETS_DIR/filename` an image whose width and height are both exactly
that size. -/
theorem create_icon_dimensions (M : Metrics) (env : Env) (size : Int)
    (filename : String) (fs : FS) (hs : 0 < size)
    (hd : fs.dirs.contains ASSETS_DIR = true) :
    ∃ fs1 img,
      create_icon M env size filename fs = .ok (fs1, ASSETS_DIR ++ [filename]) ∧
      fs1.files.lookup (ASSETS_DIR ++ [filename]) = some img ∧
      img.width = size ∧ img.height = size := by
  exact ⟨_, _, create_icon_ok M env size filename fs (le_of_lt hs) hd,
    List.lookup_cons_self, rfl, rfl⟩

/-- Witness for C2 at size 16 on a filesystem holding the icons
directory. -/
theorem create_icon_dimensions_witness :
    (0 : Int) < 16 ∧ fsIcons.dirs.contains ASSETS_DIR = true ∧
    (∃ fs1 img,
      create_icon M0 envNone 16 ("icon16.png") fsIcons =
        .ok (fs1, ASSETS_DIR ++ ["icon16.png"]) ∧
      fs1.files.lookup (ASSETS_DIR ++ ["icon16.png"]) = some img ∧
      img.width = 16 ∧ img.height = 16) :=
  ⟨by decide, by decide,
   create_icon_dimensions M0 envNone 16 ("icon16.png") fsIcons (by decide) (by decide)⟩

/-- C5: for every positive size, the one ellipse `create_icon` draws has
a bounding box symmetric about the centre coordinate `(size//2, size//2)`
of the square bitmap — for even sizes `2*(size//2) = size`, the exact
geometric centre — with radius `size//3`, one-third of the side (floor
division, as the source computes it). -/
theorem icon_accent_circle_centered (M : Metrics) (env : Env) (size : Int)
    (filename : String) (fs : FS) (hs : 0 < size)
    (hd : fs.dirs.contains ASSETS_DIR = true) :
    ∃ fs1 img,
      create_icon M env size filename fs = .ok (fs1, ASSETS_DIR ++ [filename]) ∧
      fs1.files.lookup (ASSETS_DIR ++ [filename]) = some img ∧
      img.ops.filter DrawOp.isEllipse =
        [DrawOp.ellipse (size.fdiv 2 - size.fdiv 3) (size.fdiv 2 - size.fdiv 3)
          (size.fdiv 2 + size.fdiv 3) (size.fdiv 2 + size.fdiv 3) [0, 145, 255, 230]] ∧
      (size.fdiv 2 - size.fdiv 3) + (size.fdiv 2 + size.fdiv 3) = 2 * size.fdiv 2 ∧
      (size.fdiv 2 + size.fdiv 3) - (size.fdiv 2 - size.fdiv 3) = 2 * size.fdiv 3 ∧
      (size % 2 = 0 → 2 * size.fdiv 2 = size) := by
  refine ⟨_, _, create_icon_ok M env size filename fs (le_of_lt hs) hd,
    List.lookup_cons_self, ?_, by ring, by ring, fun he => ?_⟩
  · simp [iconImage, DrawOp.isEllipse]
  · rw [Int.fdiv_eq_ediv size (by decide)]
    omega

/-- Witness for C5 at size 16. -/
theorem icon_accent_circle_centered_witness :
    (0 : Int) < 16 ∧ fsIcons.dirs.contains ASSETS_DIR = true ∧
    (∃ fs1 img,
      create_icon M0 envNone 16 ("icon16.png") fsIcons =
        .ok (fs1, ASSETS_DIR ++ ["icon16.png"]) ∧
      fs1.files.lookup (ASSETS_DIR ++ ["icon16.png"]) = some img ∧
      img.ops.filter DrawOp.isEllipse =
        [DrawOp.ellipse ((16 : Int).fdiv 2 - (16 : Int).fdiv 3)
          ((16 : Int).fdiv 2 - (16 : Int).fdiv 3)
          ((16 : Int).fdiv 2 + (16 : Int).fdiv 3)
          ((16 : Int).fdiv 2 + (16 : Int).fdiv 3) [0, 145, 255, 230]] ∧
      ((16 : Int).fdiv 2 - (16 : Int).fdiv 3) + ((16 : Int).fdiv 2 + (16 : Int).fdiv 3) =
        2 * (16 : Int).fdiv 2 ∧
      ((16 : Int).fdiv 2 + (16 : Int).fdiv 3) - ((16 : Int).fdiv 2 - (16 : Int).fdiv 3) =
        2 * (16 : Int).fdiv 3 ∧
      ((16 : Int) % 2 = 0 → 2 * (16 : Int).fdiv 2 = 16)) :=
  ⟨by decide, by decide,
   icon_accent_circle_centered M0 envNone 16 ("icon16.png") fsIcons (by decide) (by decide)⟩

/-- C6: `get_font` consults the candidate paths in a fixed order: if the
primary SFNS path loads it returns that truetype font having consulted
only the primary path; only if the primary fails does it try the Arial
Unicode path; and it returns the built-in default exactly when both
fail. -/
theorem get_font_candidate_order (env : Env) (size : Int) :
    (env sfnsPath = true →
      get_fontT env size = (Font.truetype sfnsPath size, [sfnsPath])) ∧
    (env sfnsPath = false → env arialUnicodePath = true →
      get_fontT env size =
        (Font.truetype arialUnicodePath size, [sfnsPath, arialUnicodePath])) ∧
    (env sfnsPath = false → env arialUnicodePath = false →
      get_fontT env size = (ImageFont_load_default, [sfnsPath, arialUnicodePath])) ∧
    (env sfnsPath = true → arialUnicodePath ∉ (get_fontT env size).2) := by
  refine ⟨fun h1 => ?_, fun h1 h2 => ?_, fun h1 h2 => ?_, fun h1 => ?_⟩ <;>
    simp [get_fontT, ImageFont_truetype, h1, *] <;>
    simp [sfnsPath, arialUnicodePath]

/-- Witness for C6 on a system where only the primary font loads. -/
theorem get_font_candidate_order_witness :
    get_fontT envSfns 12 = (Font.truetype sfnsPath 12, [sfnsPath]) ∧
    arialUnicodePath ∉ (get_fontT envSfns 12).2 :=
  ⟨(get_font_candidate_order envSfns 12).1 (by decide),
   (get_font_candidate_order envSfns 12).2.2.2 (by decide)⟩

/-- C9: when both truetype candidates fail, `get_font` returns the
built-in default font, which does not carry the requested size, so the
fallback result is the same for any two requested sizes. -/
theorem fallback_font_size_independent (env : Env) (s1 s2 : Int)
    (h1 : env sfnsPath = false) (h2 : env arialUnicodePath = false) :
    get_font env s1 = ImageFont_load_default ∧ get_font env s1 = get_font env s2 := by
  simp [get_font, get_fontT, ImageFont_truetype, h1, h2]

/-- Witness for C9 at sizes 5 and 42 with no loadable fonts. -/
theorem fallback_font_size_independent_witness :
    get_font envNone 5 = ImageFont_load_default ∧
    get_font envNone 5 = get_font envNone 42 :=
  fallback_font_size_independent envNone 5 42 rfl rfl

/-- C10: the corner radius of the icon background is `max 6 (size // 8)`;
for every size below 48 it is the fixed value 6, and at size 16 it
exceeds one-eighth of the side (`16 // 8 = 2 < 6`). -/
theorem icon_corner_radius (M : Metrics) (env : Env) (size : Int)
    (filename : String) (fs : FS) (hs : 0 < size)
    (hd : fs.dirs.contains ASSETS_DIR = true) :
    ∃ fs1 img rest,
      create_icon M env size filename fs = .ok (fs1, ASSETS_DIR ++ [filename]) ∧
      fs1.files.lookup (ASSETS_DIR ++ [filename]) = some img ∧
      img.ops = DrawOp.rounded_rectangle 0 0 ((size : Rat) - 1) ((size : Rat) - 1)
        (icon_radius size) (some [25, 32, 45, 255]) none 1 :: rest ∧
      icon_radius size = max 6 (size.fdiv 8) ∧
      (size < 48 → icon_radius size = 6) ∧
      Int.fdiv 16 8 < icon_radius 16 := by
  refine ⟨_, _, _, create_icon_ok M env size filename fs (le_of_lt hs) hd,
    List.lookup_cons_self, rfl, rfl, fun hlt => ?_, by decide⟩
  have he : size.fdiv 8 = size / 8 := Int.fdiv_eq_ediv size (by decide)
  simp only [icon_radius, he]
  omega

/-- Witness for C10 at size 16. -/
theorem icon_corner_radius_witness :
    (0 : Int) < 16 ∧ fsIcons.dirs.contains ASSETS_DIR = true ∧
    (∃ fs1 img rest,
      create_icon M0 envNone 16 ("icon16.png") fsIcons =
        .ok (fs1, ASSETS_DIR ++ ["icon16.png"]) ∧
      fs1.files.lookup (ASSETS_DIR ++ ["icon16.png"]) = some img ∧
      img.ops = DrawOp.rounded_rectangle 0 0 ((16 : Rat) - 1) ((16 : Rat) - 1)
        (icon_radius 16) (some [25, 32, 45, 255]) none 1 :: rest ∧
      icon_radius 16 = max 6 ((16 : Int).fdiv 8) ∧
      ((16 : Int) < 48 → icon_radius 16 = 6) ∧
      Int.fdiv 16 8 < icon_radius 16) :=
  ⟨by decide, by decide,
   icon_corner_radius M0 envNone 16 ("icon16.png") fsIcons (by decide) (by decide)⟩

/-- C3: every screenshot `create_screenshot` saves is exactly 1280×800
regardless of the index, title and subtitle, and the promo tile saved by
the driver at `store-assets/promo-440x280.png` is exactly 440×280. -/
theorem screenshot_and_promo_dimensions :
    (∀ (M : Metrics) (env : Env) (idx : Int) (title subtitle : String) (fs : FS),
      fs.dirs.contains SCREENSHOTS_DIR = true →
      ∃ fs1 img,
        create_screenshot M env idx title subtitle fs =
          .ok (fs1, SCREENSHOTS_DIR ++ ["screenshot-" ++ toString idx ++ ".png"]) ∧
        fs1.files.lookup (SCREENSHOTS_DIR ++ ["screenshot-" ++ toString idx ++ ".png"]) =
          some img ∧
        img.width = 1280 ∧ img.height = 800) ∧
    (∀ (M : Metrics) (env : Env) (fs : FS),
      ∃ fs1 writes img,
        main M env fs = .ok (fs1, writes) ∧
        fs1.files.lookup (STORE_DIR ++ ["promo-440x280.png"]) = some img ∧
        img.width = 440 ∧ img.height = 280) := by
  constructor
  · intro M env idx title subtitle fs hd
    exact ⟨_, _, create_screenshot_ok M env idx title subtitle fs hd,
      List.lookup_cons_self, rfl, rfl⟩
  · intro M env fs
    exact ⟨_, _, _, rfl, List.lookup_cons_self, rfl, rfl⟩

/-- Witness for C3: the screenshot branch applied at index 1 on a
filesystem holding the screenshots directory, together with the promo
branch on the empty filesystem. -/
theorem screenshot_and_promo_dimensions_witness :
    (∃ fs1 img,
      create_screenshot M0 envNone 1 ("a") ("b") fsShots =
        .ok (fs1, SCREENSHOTS_DIR ++ ["screenshot-" ++ toString (1 : Int) ++ ".png"]) ∧
      fs1.files.lookup
          (SCREENSHOTS_DIR ++ ["screenshot-" ++ toString (1 : Int) ++ ".png"]) =
        some img ∧
      img.width = 1280 ∧ img.height = 800) ∧
    (∃ fs1 writes img,
      main M0 envNone emptyFS = .ok (fs1, writes) ∧
      fs1.files.lookup (STORE_DIR ++ ["promo-440x280.png"]) = some img ∧
      img.width = 440 ∧ img.height = 280) :=
  ⟨screenshot_and_promo_dimensions.1 M0 envNone 1 ("a") ("b") fsShots (by decide),
   screenshot_and_promo_dimensions.2 M0 envNone emptyFS⟩

/-- C4: a run of `main` on an empty filesystem succeeds, and afterwards
the files in the icons directory are exactly the four icon PNGs and the
files in the screenshots directory are exactly the five screenshot PNGs
(listed newest-written first). -/
theorem main_output_files (M : Metrics) (env : Env) :
    ∃ fs1 writes,
      main M env emptyFS = .ok (fs1, writes) ∧
      (fs1.files.map Prod.fst).filter (inDir ASSETS_DIR) =
        [ASSETS_DIR ++ ["icon128.png"], ASSETS_DIR ++ ["icon48.png"],
         ASSETS_DIR ++ ["icon32.png"], ASSETS_DIR ++ ["icon16.png"]] ∧
      (fs1.files.map Prod.fst).filter (inDir SCREENSHOTS_DIR) =
        [SCREENSHOTS_DIR ++ ["screenshot-5.png"], SCREENSHOTS_DIR ++ ["screenshot-4.png"],
         SCREENSHOTS_DIR ++ ["screenshot-3.png"], SCREENSHOTS_DIR ++ ["screenshot-2.png"],
         SCREENSHOTS_DIR ++ ["screenshot-1.png"]] :=
  ⟨_, _, rfl, rfl, rfl⟩

/-- C7: from any starting filesystem, `main` succeeds and writes exactly
the fixed list of output paths, and running it again on the resulting
filesystem succeeds and writes the same paths: existing directories and
files never make the second run fail. -/
theorem main_idempotent_paths (M : Metrics) (env : Env) (fs : FS) :
    ∃ fs1 fs2,
      main M env fs = .ok (fs1, allOutputPaths) ∧
      main M env fs1 = .ok (fs2, allOutputPaths) :=
  ⟨_, _, rfl, rfl⟩

/-- C8: the program is deterministic apart from font resolution: two
runs in which `get_font` resolves every size to the same font produce
identical filesystem results, bitmaps included. -/
theorem main_deterministic_given_fonts (M : Metrics) (env1 env2 : Env) (fs : FS)
    (h : ∀ s, get_font env1 s = get_font env2 s) :
    main M env1 fs = main M env2 fs := by
  have hf : get_font env1 = get_font env2 := funext h
  simp only [main, create_icon, create_screenshot, create_promo, ensure_dirs, hf]

/-- Witness for C8: two distinct environments (one loads no font file,
the other loads only an unrelated one) resolve fonts identically, so
their runs coincide. -/
theorem main_deterministic_given_fonts_witness :
    main M0 envNone emptyFS = main M0 envOther emptyFS :=
  main_deterministic_given_fonts M0 envNone envOther emptyFS (fun _ => rfl)

end GenerateAssets
